import Mathlib

/-!
Verification of `src/vphysics_wrapper/vphysics_wrapper.cpp`, the CPU-dispatch
forwarding shim of this repository.  The C++ file wraps three interfaces
(`IPhysics`, `IPhysicsSurfaceProps`, `IPhysicsCollision`): it detects the host
instruction-set tier of the host CPU, derives a module file name from the tier, loads the
module, and forwards every interface call to the delegate of the loaded module.

The embedding below models:
  * the `cpuid` instruction as a pure function from (function, subfunction) to
    the four 32-bit registers, so `GetCPULevel` becomes a pure function of the
    host CPU;
  * `Sys_LoadInterface` as an environment-supplied function from
    (module name, interface version) to an optional (handle, delegate) pair;
  * the fields of each wrapper object (`m_pActualPhysics...Module`,
    `m_pActualPhysics...Interface`) as an explicit state record, with `none`
    standing for a null pointer (static storage is zero-initialized);
  * each delegate as a record of abstract functions, one per forwarded method
    that a claim mentions;
  * each wrapper method as a state-passing function returning an `OpResult`
    that records the returned value, the new field values, how many
    `Sys_LoadInterface` / `Sys_UnloadModule` calls the method performed, which
    delegate methods it invoked (in order), and whether it dereferenced a null
    delegate pointer (undefined behavior in the C++).
`Msg(...)` debug traces have no observable effect on any claim and are omitted.
-/

namespace VPhysJolt

/-- The four registers returned by one `cpuid` invocation.  Each field is the
value of the 32-bit register as a natural number (bit pattern). -/
structure CpuidRegs where
  eax : Nat
  ebx : Nat
  ecx : Nat
  edx : Nat

/-- Host CPU model: `GetCPUID(pInfo, func, subfunc)` fills `pInfo` with the
four registers; we model the hardware as the pure function
`func ↦ subfunc ↦ registers`. -/
def Cpu : Type := Nat → Nat → CpuidRegs

/-- Reinterpret a 32-bit register pattern as the C `int` it is stored into
(`int cpuInfo[4]`), that is, signed two-complement. -/
def asInt32 (n : Nat) : Int :=
  if n < 2 ^ 31 then (n : Int) else (n : Int) - 2 ^ 32

/-- `enum CPULevel_t` from the source. -/
inductive CPULevel_t where
  | CPU_HAS_SSE2
  | CPU_HAS_SSE42
  | CPU_HAS_AVX2
deriving DecidableEq, Repr

open CPULevel_t

/-- `GetCPULevel` (vphysics_wrapper.cpp lines 86-109).  Faithful to the
control flow of the source: leaf 0 gives `numFuncs`; if `numFuncs >= 7` only the
AVX2 bit (leaf 7, EBX bit 5) is consulted, otherwise only the SSE4.2 bit
(leaf 1, ECX bit 20) is consulted; `cpuLevel` starts at `CPU_HAS_SSE2` and is
overwritten only when the consulted bit is set. -/
def GetCPULevel (cpu : Cpu) : CPULevel_t :=
  let numFuncs : Int := asInt32 (cpu 0 0).eax
  if numFuncs ≥ 7 then
    if (cpu 7 0).ebx &&& (1 <<< 5) ≠ 0 then CPU_HAS_AVX2 else CPU_HAS_SSE2
  else
    if (cpu 1 0).ecx &&& (1 <<< 20) ≠ 0 then CPU_HAS_SSE42 else CPU_HAS_SSE2

/-- `GetModuleFromCPULevel` (lines 111-119).  `DLL_EXT_STRING` is a
platform-specific compile-time constant from the engine headers (not in this
repository), so it is passed as the parameter `ext`. -/
def GetModuleFromCPULevel (ext : String) : CPULevel_t → String
  | CPU_HAS_AVX2 => "vphysics_jolt_avx2" ++ ext
  | CPU_HAS_SSE42 => "vphysics_jolt_sse42" ++ ext
  | _ => "vphysics_jolt_sse2" ++ ext

/-- Modelled from the spec: the versioned interface-name string for the
environment interface (`VPHYSICS_INTERFACE_VERSION`), defined in the engine
header `vphysics_interface.h`, which is outside this repository.  Its exact
characters are immaterial to every claim; only that one fixed string exists
per wrapped interface. -/
def VPHYSICS_INTERFACE_VERSION : String := "VPhysics031"

/-- Modelled from the spec: the versioned interface-name string for the
surface-properties interface, from the engine header outside this
repository. -/
def VPHYSICS_SURFACEPROPS_INTERFACE_VERSION : String := "VPhysicsSurfaceProps001"

/-- Modelled from the spec: the versioned interface-name string for the
collision interface, from the engine header outside this repository. -/
def VPHYSICS_COLLISION_INTERFACE_VERSION : String := "VPhysicsCollision007"

/-- Pointer values (module handles, `void*` results, `CPhysCollide*`
arguments) are modelled as natural numbers; `0` is the null pointer where a
pointer is a return value. -/
abbrev Ptr : Type := Nat

/-- C `float` values that the wrappers merely copy through are modelled by
their 32-bit patterns; no forwarding method interprets them. -/
abbrev FloatBits : Type := Nat

/-- The delegate object behind the environment facade: the real `IPhysics`
implementation exported by the loaded module.  One abstract function per
forwarded method a claim mentions. -/
structure IPhysicsDelegate where
  connect : Ptr → Bool
  initResult : Nat
  queryInterface : String → Ptr
  findCollisionSet : Nat → Ptr

/-- The fields of `class PhysicsWrapper` (lines 56-62).  `none` is a null
pointer; the storage of the static singleton is zero-initialized. -/
structure PhysicsWrapperState where
  m_pActualPhysicsModule : Option Ptr
  m_pActualPhysicsInterface : Option IPhysicsDelegate

/-- The zero-initialized static `PhysicsWrapper::s_PhysicsInterface` before
any method has run: both pointer fields null. -/
def PhysicsWrapperZero : PhysicsWrapperState := ⟨none, none⟩

/-- The ambient process for one facade: the host CPU, the
platform-specific `DLL_EXT_STRING`, and `Sys_LoadInterface` (engine code outside this
repository) as a function from (module file name, interface version string)
to an optional (module handle, delegate) pair; `none` means the load or the
export lookup failed and `Sys_LoadInterface` returned false. -/
structure LoaderEnv (δ : Type) where
  cpu : Cpu
  ext : String
  loadInterface : String → String → Option (Ptr × δ)

/-- The observable outcome of one wrapper-method call: the value returned to
the caller, the fields of the wrapper afterwards, how many `Sys_LoadInterface`
calls (`loads`) and `Sys_UnloadModule` calls (`unloads`) the method made,
which delegate methods it invoked in order (`forwards`), and whether it
dereferenced a null delegate pointer (`nullDeref`, undefined behavior in the
C++; when it is true the other fields describe the execution up to that
point and `ret` is a placeholder). -/
structure OpResult (α : Type) (σ : Type) where
  ret : α
  state : σ
  loads : Nat
  unloads : Nat
  forwards : List String
  nullDeref : Bool

namespace PhysicsWrapper

/-- `PhysicsWrapper::InitWrapper` (lines 122-133): if the interface pointer
is already non-null, return true; otherwise derive the module name from the
CPU level and call `Sys_LoadInterface`, which on success fills both fields.
Returns (returned bool, fields afterwards, number of `Sys_LoadInterface`
calls). -/
def InitWrapper (env : LoaderEnv IPhysicsDelegate) (s : PhysicsWrapperState) :
    Bool × PhysicsWrapperState × Nat :=
  match s.m_pActualPhysicsInterface with
  | some _ => (true, s, 0)
  | none =>
    let pModuleName := GetModuleFromCPULevel env.ext (GetCPULevel env.cpu)
    match env.loadInterface pModuleName VPHYSICS_INTERFACE_VERSION with
    | some hd => (true, ⟨some hd.1, some hd.2⟩, 1)
    | none => (false, s, 1)

/-- `PhysicsWrapper::Connect` (lines 135-141): `if (!InitWrapper()) return
false;` then forward `Connect(factory)` to the delegate.  The `factory`
argument is an opaque function pointer, modelled as a `Ptr`. -/
def Connect (env : LoaderEnv IPhysicsDelegate) (factory : Ptr)
    (s : PhysicsWrapperState) : OpResult Bool PhysicsWrapperState :=
  match InitWrapper env s with
  | (false, s1, n) => ⟨false, s1, n, 0, [], false⟩
  | (true, s1, n) =>
    match s1.m_pActualPhysicsInterface with
    | some d => ⟨d.connect factory, s1, n, 0, ["Connect"], false⟩
    | none => ⟨false, s1, n, 0, [], true⟩

/-- `PhysicsWrapper::Disconnect` (lines 143-148): forwards `Disconnect()` to
the delegate, then `Sys_UnloadModule(m_pActualPhysicsModule)`.  Neither field
is written: the state is returned unchanged. -/
def Disconnect (s : PhysicsWrapperState) : OpResult Unit PhysicsWrapperState :=
  match s.m_pActualPhysicsInterface with
  | some _ => ⟨(), s, 0, 1, ["Disconnect"], false⟩
  | none => ⟨(), s, 0, 0, [], true⟩

/-- `PhysicsWrapper::Init` (lines 152-155): `return
m_pActualPhysicsInterface->Init();` with no null check and no lazy
resolution.  The returned `InitReturnVal_t` is modelled as a `Nat`. -/
def Init (s : PhysicsWrapperState) : OpResult Nat PhysicsWrapperState :=
  match s.m_pActualPhysicsInterface with
  | some d => ⟨d.initResult, s, 0, 0, ["Init"], false⟩
  | none => ⟨0, s, 0, 0, [], true⟩

/-- `PhysicsWrapper::QueryInterface` (lines 162-169): tries `InitWrapper`
first ("this function can be called before Connect"), returns `nullptr` when
it fails, otherwise forwards `QueryInterface(pInterfaceName)`. -/
def QueryInterface (env : LoaderEnv IPhysicsDelegate) (pInterfaceName : String)
    (s : PhysicsWrapperState) : OpResult Ptr PhysicsWrapperState :=
  match InitWrapper env s with
  | (false, s1, n) => ⟨0, s1, n, 0, [], false⟩
  | (true, s1, n) =>
    match s1.m_pActualPhysicsInterface with
    | some d => ⟨d.queryInterface pInterfaceName, s1, n, 0, ["QueryInterface"], false⟩
    | none => ⟨0, s1, n, 0, [], true⟩

/-- `PhysicsWrapper::FindCollisionSet` (lines 207-210): an unconditional
one-line forward of `FindCollisionSet(id)`. -/
def FindCollisionSet (id : Nat) (s : PhysicsWrapperState) :
    OpResult Ptr PhysicsWrapperState :=
  match s.m_pActualPhysicsInterface with
  | some d => ⟨d.findCollisionSet id, s, 0, 0, ["FindCollisionSet"], false⟩
  | none => ⟨0, s, 0, 0, [], true⟩

/-- `n` consecutive `InitWrapper` calls on the same facade (the resolve
attempts of a sequence of triggering operations): final fields and the total
number of `Sys_LoadInterface` calls. -/
def resolveSeq (env : LoaderEnv IPhysicsDelegate) :
    Nat → PhysicsWrapperState → PhysicsWrapperState × Nat
  | 0, s => (s, 0)
  | n + 1, s =>
    let r := InitWrapper env s
    let rest := resolveSeq env n r.2.1
    (rest.1, r.2.2 + rest.2)

end PhysicsWrapper

/-- The delegate behind the surface-properties facade: the real
`IJoltPhysicsSurfaceProps` implementation exported by the loaded module. -/
structure ISurfacePropsDelegate where
  parseSurfaceData : String → String → Int
  getSurfaceIndex : String → Int

/-- The fields of `class PhysicsSurfacePropsWrapper` (lines 270-274). -/
structure SurfacePropsState where
  m_pActualPhysicsSurfacePropsModule : Option Ptr
  m_pActualPhysicsSurfacePropsInterface : Option ISurfacePropsDelegate

/-- The zero-initialized static `s_PhysicsSurfaceProps` (`= {}`) before its
constructor runs: both pointer fields null. -/
def SurfacePropsZero : SurfacePropsState := ⟨none, none⟩

namespace PhysicsSurfacePropsWrapper

/-- The constructor `PhysicsSurfacePropsWrapper::PhysicsSurfacePropsWrapper`
(lines 282-291): if the interface pointer is already non-null, return;
otherwise derive the module name from the CPU level and call
`Sys_LoadInterface`; on failure only `Msg("Failed to load ...")` is printed
and the fields stay null.  Returns (fields afterwards, number of
`Sys_LoadInterface` calls). -/
def construct (env : LoaderEnv ISurfacePropsDelegate) (s : SurfacePropsState) :
    SurfacePropsState × Nat :=
  match s.m_pActualPhysicsSurfacePropsInterface with
  | some _ => (s, 0)
  | none =>
    let pModuleName := GetModuleFromCPULevel env.ext (GetCPULevel env.cpu)
    match env.loadInterface pModuleName VPHYSICS_SURFACEPROPS_INTERFACE_VERSION with
    | some hd => (⟨some hd.1, some hd.2⟩, 1)
    | none => (s, 1)

/-- `PhysicsSurfacePropsWrapper::ParseSurfaceData` (lines 301-305): an
unconditional one-line forward of `ParseSurfaceData(pFilename, pTextfile)`
(after a `Msg` debug trace), with no null check and no lazy resolution. -/
def ParseSurfaceData (pFilename pTextfile : String) (s : SurfacePropsState) :
    OpResult Int SurfacePropsState :=
  match s.m_pActualPhysicsSurfacePropsInterface with
  | some d => ⟨d.parseSurfaceData pFilename pTextfile, s, 0, 0, ["ParseSurfaceData"], false⟩
  | none => ⟨0, s, 0, 0, [], true⟩

/-- `PhysicsSurfacePropsWrapper::GetSurfaceIndex` (lines 315-319): an
unconditional one-line forward of `GetSurfaceIndex(pSurfacePropName)`. -/
def GetSurfaceIndex (pSurfacePropName : String) (s : SurfacePropsState) :
    OpResult Int SurfacePropsState :=
  match s.m_pActualPhysicsSurfacePropsInterface with
  | some d => ⟨d.getSurfaceIndex pSurfacePropName, s, 0, 0, ["GetSurfaceIndex"], false⟩
  | none => ⟨0, s, 0, 0, [], true⟩

end PhysicsSurfacePropsWrapper

/-- The delegate behind the collision facade: the real
`IJoltPhysicsCollision` implementation exported by the loaded module. -/
structure ICollisionDelegate where
  collideVolume : Ptr → FloatBits

/-- The fields of `class PhysicsCollisionWrapper` (lines 524-528). -/
structure CollisionState where
  m_pActualPhysicsCollisionModule : Option Ptr
  m_pActualPhysicsCollisionInterface : Option ICollisionDelegate

/-- The zero-initialized static `s_PhysicsCollision` (`= {}`) before its
constructor runs: both pointer fields null. -/
def CollisionZero : CollisionState := ⟨none, none⟩

namespace PhysicsCollisionWrapper

/-- The constructor `PhysicsCollisionWrapper::PhysicsCollisionWrapper`
(lines 536-545): same shape as the surface-properties constructor, against
the collision interface version string. -/
def construct (env : LoaderEnv ICollisionDelegate) (s : CollisionState) :
    CollisionState × Nat :=
  match s.m_pActualPhysicsCollisionInterface with
  | some _ => (s, 0)
  | none =>
    let pModuleName := GetModuleFromCPULevel env.ext (GetCPULevel env.cpu)
    match env.loadInterface pModuleName VPHYSICS_COLLISION_INTERFACE_VERSION with
    | some hd => (⟨some hd.1, some hd.2⟩, 1)
    | none => (s, 1)

/-- `PhysicsCollisionWrapper::CollideVolume` (lines 676-680): an
unconditional one-line forward of `CollideVolume(pCollide)`; the returned
`float` is copied through uninterpreted. -/
def CollideVolume (pCollide : Ptr) (s : CollisionState) :
    OpResult FloatBits CollisionState :=
  match s.m_pActualPhysicsCollisionInterface with
  | some d => ⟨d.collideVolume pCollide, s, 0, 0, ["CollideVolume"], false⟩
  | none => ⟨0, s, 0, 0, [], true⟩

end PhysicsCollisionWrapper

/-! Concrete inputs used by counterexamples and witnesses. -/

/-- A host CPU whose maximum basic leaf is 7, whose leaf-7 EBX has the AVX2
bit clear, and whose leaf-1 ECX has the SSE4.2 bit set. -/
def cpuLeaf7NoAvx2Sse42 : Cpu := fun func _ =>
  if func = 0 then ⟨7, 0, 0, 0⟩
  else if func = 1 then ⟨0, 0, 1 <<< 20, 0⟩
  else ⟨0, 0, 0, 0⟩

/-- A concrete environment-facade delegate. -/
def dPhysOk : IPhysicsDelegate :=
  ⟨fun p => decide (p % 2 = 0), 3, fun n => n.length + 100, fun i => i + 7⟩

/-- A loader environment whose `Sys_LoadInterface` always succeeds, handing
out module handle 42 and the delegate `dPhysOk`. -/
def envPhysOk : LoaderEnv IPhysicsDelegate :=
  ⟨cpuLeaf7NoAvx2Sse42, ".so", fun _ _ => some (42, dPhysOk)⟩

/-- A loader environment whose `Sys_LoadInterface` always fails (module file
absent or export lookup failed). -/
def envPhysFail : LoaderEnv IPhysicsDelegate :=
  ⟨cpuLeaf7NoAvx2Sse42, ".so", fun _ _ => none⟩

/-- A concrete surface-properties delegate. -/
def dSurfOk : ISurfacePropsDelegate :=
  ⟨fun f t => (f.length : Int) + (t.length : Int), fun n => (n.length : Int) - 1⟩

/-- A loader environment for the surface-properties facade that always
succeeds. -/
def envSurfOk : LoaderEnv ISurfacePropsDelegate :=
  ⟨cpuLeaf7NoAvx2Sse42, ".so", fun _ _ => some (43, dSurfOk)⟩

/-- A loader environment for the surface-properties facade that always
fails. -/
def envSurfFail : LoaderEnv ISurfacePropsDelegate :=
  ⟨cpuLeaf7NoAvx2Sse42, ".so", fun _ _ => none⟩

/-- A concrete collision delegate. -/
def dCollOk : ICollisionDelegate := ⟨fun p => p * 2 + 1⟩

/-- A loader environment for the collision facade that always succeeds. -/
def envCollOk : LoaderEnv ICollisionDelegate :=
  ⟨cpuLeaf7NoAvx2Sse42, ".so", fun _ _ => some (44, dCollOk)⟩

/-! Helper lemmas shared between claims. -/

/-- Appending the same string on the right is cancellative. -/
lemma string_append_right_cancel (s1 s2 ext : String)
    (h : s1 ++ ext = s2 ++ ext) : s1 = s2 := by
  apply String.ext
  have hd : s1.data ++ ext.data = s2.data ++ ext.data := by
    simpa [String.data_append] using congrArg String.data h
  have hl : s1.data.length = s2.data.length := by
    have hlen := congrArg List.length hd
    simp only [List.length_append] at hlen
    omega
  exact (List.append_inj hd hl).1

/-- Once the delegate field is non-null, any number of further resolve
attempts leave the state unchanged and perform no load. -/
lemma resolveSeq_of_resolved (env : LoaderEnv IPhysicsDelegate) (m : Nat)
    (s1 : PhysicsWrapperState) (d : IPhysicsDelegate)
    (h1 : s1.m_pActualPhysicsInterface = some d) :
    PhysicsWrapper.resolveSeq env m s1 = (s1, 0) := by
  induction m with
  | zero => rfl
  | succ k ih =>
    simp [PhysicsWrapper.resolveSeq, PhysicsWrapper.InitWrapper, h1, ih]

/-! Claims. -/

/-- C1, counterexample.  On a CPU whose maximum basic leaf is 7, whose AVX2
bit (leaf 7, EBX bit 5) is clear and whose SSE4.2 bit (leaf 1, ECX bit 20)
is set, `GetCPULevel` returns `CPU_HAS_SSE2`, not the `CPU_HAS_SSE42` the
claim demands: the SSE4.2 bit is consulted only when the extended feature
leaf is absent. -/
theorem C1_cex_leaf7_sse42_classified_baseline :
    asInt32 (cpuLeaf7NoAvx2Sse42 0 0).eax ≥ 7 ∧
    (cpuLeaf7NoAvx2Sse42 7 0).ebx &&& (1 <<< 5) = 0 ∧
    (cpuLeaf7NoAvx2Sse42 1 0).ecx &&& (1 <<< 20) ≠ 0 ∧
    GetCPULevel cpuLeaf7NoAvx2Sse42 = CPU_HAS_SSE2 ∧
    GetCPULevel cpuLeaf7NoAvx2Sse42 ≠ CPU_HAS_SSE42 := by
  refine ⟨by decide, by decide, by decide, by decide, by decide⟩

/-- C1, amended.  `GetCPULevel` is a two-way branch, not a three-rung
ladder: when the extended feature leaf is exposed (maximum basic leaf at
least 7) it returns `CPU_HAS_AVX2` if the AVX2 bit is set and
`CPU_HAS_SSE2` otherwise, never consulting the SSE4.2 bit; only when the
extended feature leaf is absent does it return `CPU_HAS_SSE42` if the
SSE4.2 bit is set, and `CPU_HAS_SSE2` otherwise. -/
theorem C1_GetCPULevel_characterization (cpu : Cpu) :
    (GetCPULevel cpu = CPU_HAS_AVX2 ↔
      asInt32 (cpu 0 0).eax ≥ 7 ∧ (cpu 7 0).ebx &&& (1 <<< 5) ≠ 0) ∧
    (GetCPULevel cpu = CPU_HAS_SSE42 ↔
      ¬ asInt32 (cpu 0 0).eax ≥ 7 ∧ (cpu 1 0).ecx &&& (1 <<< 20) ≠ 0) ∧
    (GetCPULevel cpu = CPU_HAS_SSE2 ↔
      (asInt32 (cpu 0 0).eax ≥ 7 ∧ (cpu 7 0).ebx &&& (1 <<< 5) = 0) ∨
      (¬ asInt32 (cpu 0 0).eax ≥ 7 ∧ (cpu 1 0).ecx &&& (1 <<< 20) = 0)) := by
  simp only [GetCPULevel]
  split_ifs with h1 h2 h3 <;> simp_all

/-- C7.  The tier-to-module-name mapping is total on the three-value tier
enumeration, sends each tier to its own fixed suffixed file name, and is
injective for every platform extension, so no input falls back or is
downgraded to the file name of a lower tier. -/
theorem C7_GetModuleFromCPULevel_total_injective (ext : String) :
    GetModuleFromCPULevel ext CPU_HAS_AVX2 = "vphysics_jolt_avx2" ++ ext ∧
    GetModuleFromCPULevel ext CPU_HAS_SSE42 = "vphysics_jolt_sse42" ++ ext ∧
    GetModuleFromCPULevel ext CPU_HAS_SSE2 = "vphysics_jolt_sse2" ++ ext ∧
    Function.Injective (GetModuleFromCPULevel ext) := by
  refine ⟨rfl, rfl, rfl, ?_⟩
  intro a b h
  cases a <;> cases b <;>
    first
    | rfl
    | exact absurd (string_append_right_cancel _ _ ext h) (by decide)

/-- C2, counterexample.  After a resolution attempt fails (the loader
returns false, so the delegate pointer stays null), the forwarding methods
`PhysicsWrapper::Init` and `PhysicsSurfacePropsWrapper::ParseSurfaceData`
do not surface failure: they dereference the null delegate. -/
theorem C2_cex_init_dereferences_null_delegate :
    (PhysicsWrapper.Connect envPhysFail 0 PhysicsWrapperZero).ret = false ∧
    (PhysicsWrapper.Init
      (PhysicsWrapper.Connect envPhysFail 0 PhysicsWrapperZero).state).nullDeref = true ∧
    (PhysicsSurfacePropsWrapper.construct envSurfFail SurfacePropsZero).1.m_pActualPhysicsSurfacePropsInterface = none ∧
    (PhysicsSurfacePropsWrapper.ParseSurfaceData "surfaceprops.txt" "x"
      (PhysicsSurfacePropsWrapper.construct envSurfFail SurfacePropsZero).1).nullDeref = true :=
  ⟨rfl, rfl, rfl, rfl⟩

/-- C2, amended.  Only the resolution-triggering operations guard the
delegate: when resolution fails, `Connect` returns false and
`QueryInterface` returns null, each without forwarding and without
dereferencing the null delegate; every other forwarding method (for
example `Init` and `ParseSurfaceData`) forwards unconditionally and
dereferences the null delegate when called before successful resolution. -/
theorem C2_only_triggering_ops_guard (env : LoaderEnv IPhysicsDelegate)
    (factory : Ptr) (nm f t : String) (s : PhysicsWrapperState)
    (sp : SurfacePropsState)
    (hs : s.m_pActualPhysicsInterface = none)
    (hsp : sp.m_pActualPhysicsSurfacePropsInterface = none)
    (hfail : ∀ m v, env.loadInterface m v = none) :
    PhysicsWrapper.Connect env factory s = ⟨false, s, 1, 0, [], false⟩ ∧
    PhysicsWrapper.QueryInterface env nm s = ⟨0, s, 1, 0, [], false⟩ ∧
    (PhysicsWrapper.Init s).nullDeref = true ∧
    (PhysicsSurfacePropsWrapper.ParseSurfaceData f t sp).nullDeref = true := by
  refine ⟨?_, ?_, ?_, ?_⟩ <;>
    simp [PhysicsWrapper.Connect, PhysicsWrapper.QueryInterface,
      PhysicsWrapper.InitWrapper, PhysicsWrapper.Init,
      PhysicsSurfacePropsWrapper.ParseSurfaceData, hs, hsp, hfail]

/-- C2, witness for the amended theorem at a concrete failing loader. -/
theorem C2_only_triggering_ops_guard_witness :
    PhysicsWrapper.Connect envPhysFail 5 PhysicsWrapperZero = ⟨false, PhysicsWrapperZero, 1, 0, [], false⟩ ∧
    PhysicsWrapper.QueryInterface envPhysFail "VPhysicsDebugOverlay001" PhysicsWrapperZero = ⟨0, PhysicsWrapperZero, 1, 0, [], false⟩ ∧
    (PhysicsWrapper.Init PhysicsWrapperZero).nullDeref = true ∧
    (PhysicsSurfacePropsWrapper.ParseSurfaceData "a" "b" SurfacePropsZero).nullDeref = true :=
  C2_only_triggering_ops_guard envPhysFail 5 "VPhysicsDebugOverlay001" "a" "b"
    PhysicsWrapperZero SurfacePropsZero rfl rfl (fun _ _ => rfl)

/-- C3.  With the delegate resolved, the representative forwarding methods
`FindCollisionSet`, `GetSurfaceIndex` and `CollideVolume` invoke exactly
the identically-named delegate method on exactly the arguments received,
change no field, perform no load or unload, and return exactly the
delegate result. -/
theorem C3_forwarding_roundtrip_identity
    (d : IPhysicsDelegate) (ds : ISurfacePropsDelegate) (dc : ICollisionDelegate)
    (id : Nat) (nm : String) (pCollide : Ptr)
    (s : PhysicsWrapperState) (sp : SurfacePropsState) (c : CollisionState)
    (hs : s.m_pActualPhysicsInterface = some d)
    (hsp : sp.m_pActualPhysicsSurfacePropsInterface = some ds)
    (hc : c.m_pActualPhysicsCollisionInterface = some dc) :
    PhysicsWrapper.FindCollisionSet id s =
      ⟨d.findCollisionSet id, s, 0, 0, ["FindCollisionSet"], false⟩ ∧
    PhysicsSurfacePropsWrapper.GetSurfaceIndex nm sp =
      ⟨ds.getSurfaceIndex nm, sp, 0, 0, ["GetSurfaceIndex"], false⟩ ∧
    PhysicsCollisionWrapper.CollideVolume pCollide c =
      ⟨dc.collideVolume pCollide, c, 0, 0, ["CollideVolume"], false⟩ := by
  refine ⟨?_, ?_, ?_⟩ <;>
    simp [PhysicsWrapper.FindCollisionSet,
      PhysicsSurfacePropsWrapper.GetSurfaceIndex,
      PhysicsCollisionWrapper.CollideVolume, hs, hsp, hc]

/-- C3, witness at concrete resolved states and arguments. -/
theorem C3_forwarding_roundtrip_identity_witness :
    PhysicsWrapper.FindCollisionSet 10 ⟨some 42, some dPhysOk⟩ =
      ⟨dPhysOk.findCollisionSet 10, ⟨some 42, some dPhysOk⟩, 0, 0, ["FindCollisionSet"], false⟩ ∧
    PhysicsSurfacePropsWrapper.GetSurfaceIndex "metal" ⟨some 43, some dSurfOk⟩ =
      ⟨dSurfOk.getSurfaceIndex "metal", ⟨some 43, some dSurfOk⟩, 0, 0, ["GetSurfaceIndex"], false⟩ ∧
    PhysicsCollisionWrapper.CollideVolume 9 ⟨some 44, some dCollOk⟩ =
      ⟨dCollOk.collideVolume 9, ⟨some 44, some dCollOk⟩, 0, 0, ["CollideVolume"], false⟩ :=
  C3_forwarding_roundtrip_identity dPhysOk dSurfOk dCollOk 10 "metal" 9
    ⟨some 42, some dPhysOk⟩ ⟨some 43, some dSurfOk⟩ ⟨some 44, some dCollOk⟩
    rfl rfl rfl

/-- C4.  Resolution is memoized per facade instance: from an unresolved
state whose first resolve attempt succeeds, any sequence of `n ≥ 1`
resolve attempts performs exactly one `Sys_LoadInterface` call and ends in
the resolved state, and on an already-resolved state a further resolve
attempt returns true, keeps the state, and performs zero loads. -/
theorem C4_resolution_memoized (env : LoaderEnv IPhysicsDelegate)
    (s : PhysicsWrapperState) (h : Ptr) (d : IPhysicsDelegate)
    (hs : s.m_pActualPhysicsInterface = none)
    (hload : env.loadInterface
      (GetModuleFromCPULevel env.ext (GetCPULevel env.cpu))
      VPHYSICS_INTERFACE_VERSION = some (h, d)) :
    (∀ n, 1 ≤ n →
      PhysicsWrapper.resolveSeq env n s = (⟨some h, some d⟩, 1)) ∧
    PhysicsWrapper.InitWrapper env ⟨some h, some d⟩ =
      (true, ⟨some h, some d⟩, 0) := by
  constructor
  · intro n hn
    match n, hn with
    | n + 1, _ =>
      have hstep : PhysicsWrapper.InitWrapper env s =
          (true, ⟨some h, some d⟩, 1) := by
        simp [PhysicsWrapper.InitWrapper, hs, hload]
      simp [PhysicsWrapper.resolveSeq, hstep,
        resolveSeq_of_resolved env n ⟨some h, some d⟩ d rfl]
  · rfl

/-- C4, witness: three resolve attempts on the concrete succeeding loader
perform exactly one load in total. -/
theorem C4_resolution_memoized_witness :
    (1 ≤ 3 ∧
      PhysicsWrapper.resolveSeq envPhysOk 3 PhysicsWrapperZero =
        (⟨some 42, some dPhysOk⟩, 1)) ∧
    PhysicsWrapper.InitWrapper envPhysOk ⟨some 42, some dPhysOk⟩ =
      (true, ⟨some 42, some dPhysOk⟩, 0) :=
  ⟨⟨by decide,
    (C4_resolution_memoized envPhysOk PhysicsWrapperZero 42 dPhysOk rfl rfl).1 3 (by decide)⟩,
   (C4_resolution_memoized envPhysOk PhysicsWrapperZero 42 dPhysOk rfl rfl).2⟩

/-- C5.  When `Connect` triggers first-time resolution and the load fails,
`Connect` returns false, performs the single failed load attempt,
dispatches no forwarding call, does not dereference the delegate, and
leaves the fields unchanged (the facade has attempted no forwarding
call). -/
theorem C5_connect_propagates_resolution_failure
    (env : LoaderEnv IPhysicsDelegate) (factory : Ptr)
    (s : PhysicsWrapperState)
    (hs : s.m_pActualPhysicsInterface = none)
    (hfail : ∀ m v, env.loadInterface m v = none) :
    PhysicsWrapper.Connect env factory s = ⟨false, s, 1, 0, [], false⟩ := by
  simp [PhysicsWrapper.Connect, PhysicsWrapper.InitWrapper, hs, hfail]

/-- C5, witness at the concrete failing loader. -/
theorem C5_connect_propagates_resolution_failure_witness :
    PhysicsWrapper.Connect envPhysFail 7 PhysicsWrapperZero =
      ⟨false, PhysicsWrapperZero, 1, 0, [], false⟩ :=
  C5_connect_propagates_resolution_failure envPhysFail 7 PhysicsWrapperZero
    rfl (fun _ _ => rfl)

/-- C6.  `QueryInterface` before any `Connect` (delegate still null)
triggers lazy resolution: when the module loads it still succeeds,
forwarding the query to the freshly resolved delegate after exactly one
load; when resolution fails it returns null, forwards nothing, and the
failure is surfaced synchronously to that caller. -/
theorem C6_queryInterface_lazy_resolution
    (envOk envBad : LoaderEnv IPhysicsDelegate) (nm : String)
    (s sb : PhysicsWrapperState) (h : Ptr) (d : IPhysicsDelegate)
    (hs : s.m_pActualPhysicsInterface = none)
    (hok : envOk.loadInterface
      (GetModuleFromCPULevel envOk.ext (GetCPULevel envOk.cpu))
      VPHYSICS_INTERFACE_VERSION = some (h, d))
    (hsb : sb.m_pActualPhysicsInterface = none)
    (hbad : ∀ m v, envBad.loadInterface m v = none) :
    PhysicsWrapper.QueryInterface envOk nm s =
      ⟨d.queryInterface nm, ⟨some h, some d⟩, 1, 0, ["QueryInterface"], false⟩ ∧
    PhysicsWrapper.QueryInterface envBad nm sb = ⟨0, sb, 1, 0, [], false⟩ := by
  constructor
  · simp [PhysicsWrapper.QueryInterface, PhysicsWrapper.InitWrapper, hs, hok]
  · simp [PhysicsWrapper.QueryInterface, PhysicsWrapper.InitWrapper, hsb, hbad]

/-- C6, witness at the concrete succeeding and failing loaders. -/
theorem C6_queryInterface_lazy_resolution_witness :
    PhysicsWrapper.QueryInterface envPhysOk "VPhysicsDebugOverlay001" PhysicsWrapperZero =
      ⟨dPhysOk.queryInterface "VPhysicsDebugOverlay001", ⟨some 42, some dPhysOk⟩, 1, 0, ["QueryInterface"], false⟩ ∧
    PhysicsWrapper.QueryInterface envPhysFail "VPhysicsDebugOverlay001" PhysicsWrapperZero =
      ⟨0, PhysicsWrapperZero, 1, 0, [], false⟩ :=
  C6_queryInterface_lazy_resolution envPhysOk envPhysFail
    "VPhysicsDebugOverlay001" PhysicsWrapperZero PhysicsWrapperZero 42 dPhysOk
    rfl rfl rfl (fun _ _ => rfl)

/-- C8, counterexample.  After a failed resolution attempt the facade is
not in a terminal failed state: a second `Connect` on the resulting state
re-attempts the module load on its own (one further `Sys_LoadInterface`
call, where the claim requires zero). -/
theorem C8_cex_failed_connect_retries_load :
    (PhysicsWrapper.Connect envPhysFail 0 PhysicsWrapperZero).loads = 1 ∧
    (PhysicsWrapper.Connect envPhysFail 0
      (PhysicsWrapper.Connect envPhysFail 0 PhysicsWrapperZero).state).loads = 1 :=
  ⟨rfl, rfl⟩

/-- C8, amended.  A failed resolution attempt records no failure: the
fields are left unchanged with the delegate still null, so every later
`Connect` or `QueryInterface` re-attempts the module load (exactly one
`Sys_LoadInterface` call per triggering operation, with no retry loop
inside a single operation); only success is memoized. -/
theorem C8_failure_not_memoized (env : LoaderEnv IPhysicsDelegate)
    (factory : Ptr) (nm : String) (s : PhysicsWrapperState)
    (hs : s.m_pActualPhysicsInterface = none)
    (hfail : ∀ m v, env.loadInterface m v = none) :
    (PhysicsWrapper.Connect env factory s).state = s ∧
    (PhysicsWrapper.Connect env factory s).loads = 1 ∧
    (PhysicsWrapper.Connect env factory
      (PhysicsWrapper.Connect env factory s).state).loads = 1 ∧
    (PhysicsWrapper.QueryInterface env nm
      (PhysicsWrapper.Connect env factory s).state).loads = 1 := by
  have hc : PhysicsWrapper.Connect env factory s = ⟨false, s, 1, 0, [], false⟩ := by
    simp [PhysicsWrapper.Connect, PhysicsWrapper.InitWrapper, hs, hfail]
  refine ⟨by simp [hc], by simp [hc], ?_, ?_⟩ <;>
    simp [hc, PhysicsWrapper.Connect, PhysicsWrapper.QueryInterface,
      PhysicsWrapper.InitWrapper, hs, hfail]

/-- C8, witness for the amended theorem at the concrete failing loader. -/
theorem C8_failure_not_memoized_witness :
    (PhysicsWrapper.Connect envPhysFail 0 PhysicsWrapperZero).state = PhysicsWrapperZero ∧
    (PhysicsWrapper.Connect envPhysFail 0 PhysicsWrapperZero).loads = 1 ∧
    (PhysicsWrapper.Connect envPhysFail 0
      (PhysicsWrapper.Connect envPhysFail 0 PhysicsWrapperZero).state).loads = 1 ∧
    (PhysicsWrapper.QueryInterface envPhysFail "x"
      (PhysicsWrapper.Connect envPhysFail 0 PhysicsWrapperZero).state).loads = 1 :=
  C8_failure_not_memoized envPhysFail 0 "x" PhysicsWrapperZero rfl (fun _ _ => rfl)

/-- C9.  Resolution policy per facade: the surface-properties and collision
facades are eager, performing capability detection and their single module
load inside the constructor (one `Sys_LoadInterface` call from the
zero-initialized state, at the file name derived from the detected CPU
level, before any method runs, caching the delegate on success); the
environment facade is lazy, its zero-initialized state holds no delegate
and its first `Connect` or `QueryInterface` performs the load. -/
theorem C9_eager_constructors_lazy_environment
    (envP : LoaderEnv IPhysicsDelegate) (envSP : LoaderEnv ISurfacePropsDelegate)
    (envC : LoaderEnv ICollisionDelegate) (factory : Ptr) (nm : String)
    (hsp : Ptr) (dsp : ISurfacePropsDelegate) (hc : Ptr) (dc : ICollisionDelegate)
    (hspOk : envSP.loadInterface
      (GetModuleFromCPULevel envSP.ext (GetCPULevel envSP.cpu))
      VPHYSICS_SURFACEPROPS_INTERFACE_VERSION = some (hsp, dsp))
    (hcOk : envC.loadInterface
      (GetModuleFromCPULevel envC.ext (GetCPULevel envC.cpu))
      VPHYSICS_COLLISION_INTERFACE_VERSION = some (hc, dc)) :
    PhysicsSurfacePropsWrapper.construct envSP SurfacePropsZero =
      (⟨some hsp, some dsp⟩, 1) ∧
    PhysicsCollisionWrapper.construct envC CollisionZero =
      (⟨some hc, some dc⟩, 1) ∧
    PhysicsWrapperZero.m_pActualPhysicsInterface = none ∧
    (PhysicsWrapper.Connect envP factory PhysicsWrapperZero).loads = 1 ∧
    (PhysicsWrapper.QueryInterface envP nm PhysicsWrapperZero).loads = 1 := by
  refine ⟨?_, ?_, rfl, ?_, ?_⟩
  · simp [PhysicsSurfacePropsWrapper.construct, SurfacePropsZero, hspOk]
  · simp [PhysicsCollisionWrapper.construct, CollisionZero, hcOk]
  · simp only [PhysicsWrapper.Connect, PhysicsWrapper.InitWrapper,
      PhysicsWrapperZero]
    cases henv : envP.loadInterface
        (GetModuleFromCPULevel envP.ext (GetCPULevel envP.cpu))
        VPHYSICS_INTERFACE_VERSION <;> simp [henv]
  · simp only [PhysicsWrapper.QueryInterface, PhysicsWrapper.InitWrapper,
      PhysicsWrapperZero]
    cases henv : envP.loadInterface
        (GetModuleFromCPULevel envP.ext (GetCPULevel envP.cpu))
        VPHYSICS_INTERFACE_VERSION <;> simp [henv]

/-- C9, witness at the concrete succeeding loaders. -/
theorem C9_eager_constructors_lazy_environment_witness :
    PhysicsSurfacePropsWrapper.construct envSurfOk SurfacePropsZero =
      (⟨some 43, some dSurfOk⟩, 1) ∧
    PhysicsCollisionWrapper.construct envCollOk CollisionZero =
      (⟨some 44, some dCollOk⟩, 1) ∧
    PhysicsWrapperZero.m_pActualPhysicsInterface = none ∧
    (PhysicsWrapper.Connect envPhysOk 3 PhysicsWrapperZero).loads = 1 ∧
    (PhysicsWrapper.QueryInterface envPhysOk "x" PhysicsWrapperZero).loads = 1 :=
  C9_eager_constructors_lazy_environment envPhysOk envSurfOk envCollOk 3 "x"
    43 dSurfOk 44 dCollOk rfl rfl

/-- C10.  `Disconnect` forwards `Disconnect` to the delegate and unloads
the module handle but writes neither field: the state afterwards is the
state before, the delegate pointer still non-null, so a subsequent
`InitWrapper` (hence `Connect` or `QueryInterface`) treats the facade as
resolved, performs no reload, and forwards into the already-unloaded
module; no field distinguishes the facade before and after `Disconnect`. -/
theorem C10_disconnect_leaves_delegate_cached
    (env : LoaderEnv IPhysicsDelegate) (s : PhysicsWrapperState)
    (d : IPhysicsDelegate) (factory : Ptr) (nm : String)
    (hs : s.m_pActualPhysicsInterface = some d) :
    PhysicsWrapper.Disconnect s = ⟨(), s, 0, 1, ["Disconnect"], false⟩ ∧
    PhysicsWrapper.InitWrapper env (PhysicsWrapper.Disconnect s).state =
      (true, s, 0) ∧
    PhysicsWrapper.Connect env factory (PhysicsWrapper.Disconnect s).state =
      ⟨d.connect factory, s, 0, 0, ["Connect"], false⟩ ∧
    PhysicsWrapper.QueryInterface env nm (PhysicsWrapper.Disconnect s).state =
      ⟨d.queryInterface nm, s, 0, 0, ["QueryInterface"], false⟩ := by
  have hdis : PhysicsWrapper.Disconnect s = ⟨(), s, 0, 1, ["Disconnect"], false⟩ := by
    simp [PhysicsWrapper.Disconnect, hs]
  refine ⟨hdis, ?_, ?_, ?_⟩ <;>
    simp [hdis, PhysicsWrapper.Connect, PhysicsWrapper.QueryInterface,
      PhysicsWrapper.InitWrapper, hs]

/-- C10, witness at a concrete resolved state. -/
theorem C10_disconnect_leaves_delegate_cached_witness :
    PhysicsWrapper.Disconnect ⟨some 42, some dPhysOk⟩ =
      ⟨(), ⟨some 42, some dPhysOk⟩, 0, 1, ["Disconnect"], false⟩ ∧
    PhysicsWrapper.InitWrapper envPhysFail
      (PhysicsWrapper.Disconnect ⟨some 42, some dPhysOk⟩).state =
      (true, ⟨some 42, some dPhysOk⟩, 0) ∧
    PhysicsWrapper.Connect envPhysFail 3
      (PhysicsWrapper.Disconnect ⟨some 42, some dPhysOk⟩).state =
      ⟨dPhysOk.connect 3, ⟨some 42, some dPhysOk⟩, 0, 0, ["Connect"], false⟩ ∧
    PhysicsWrapper.QueryInterface envPhysFail "x"
      (PhysicsWrapper.Disconnect ⟨some 42, some dPhysOk⟩).state =
      ⟨dPhysOk.queryInterface "x", ⟨some 42, some dPhysOk⟩, 0, 0, ["QueryInterface"], false⟩ :=
  C10_disconnect_leaves_delegate_cached envPhysFail ⟨some 42, some dPhysOk⟩
    dPhysOk 3 "x" rfl

end VPhysJolt
